import Mathlib

/-!
Verification of the HKDF parameter-marshaling layer
(`cryptoki/src/mechanism/hkdf.rs`).

The Rust file defines `HkdfSalt`, `HkdfParams::new` (the Builder, producing a
`CK_HKDF_PARAMS` record) and the Reader accessors `extract`, `expand`, `salt`,
`info`.  We embed the record, the builder and the readers shallowly:

* raw pointers become `CPtr` (null, or a pointer carrying the bytes of the
  buffer it points into); `slice::as_ptr` of any slice, empty included, is
  non-null, hence maps to `CPtr.valid`;
* `CK_ULONG` values are `Nat`s; the fallible `usize -> CK_ULONG` narrowing
  (`try_into`) checks against `CK_ULONG_MAX`;
* the two `expect` panic sites of `HkdfParams::new` and the `unreachable!()`
  of `HkdfParams::salt`, as well as the undefined behaviour of
  `slice::from_raw_parts` on an invalid pointer/length pair, are modelled as
  `Except` error values (a pure embedding cannot unwind, so every abnormal
  exit becomes an explicit error).
-/

set_option autoImplicit false

/-- Maximum value representable in the foreign integer width `CK_ULONG`
(`::std::os::raw::c_ulong` in `cryptoki_sys`, 64 bits wide on the
targets this crate addresses). -/
def CK_ULONG_MAX : Nat := 2 ^ 64 - 1

/-- Sentinel `CKF_HKDF_SALT_NULL` from `cryptoki_sys` (PKCS#11 v3.0). -/
def CKF_HKDF_SALT_NULL : Nat := 0x00000001

/-- Sentinel `CKF_HKDF_SALT_DATA` from `cryptoki_sys` (PKCS#11 v3.0). -/
def CKF_HKDF_SALT_DATA : Nat := 0x00000002

/-- Sentinel `CKF_HKDF_SALT_KEY` from `cryptoki_sys` (PKCS#11 v3.0). -/
def CKF_HKDF_SALT_KEY : Nat := 0x00000004

/-- Modelled from the spec: the salt key is an "opaque handle", i.e. "an
integer identifier referencing a resource (e.g., a key object) managed
entirely by the external engine"; `ObjectHandle` (declared in
`cryptoki/src/object.rs`, not among the provided sources) transparently wraps
a `CK_OBJECT_HANDLE` integer. -/
structure ObjectHandle where
  handle : Nat
deriving DecidableEq

/-- Constructor `ObjectHandle::new` (a transparent wrapper, see above). -/
def ObjectHandle.new (h : Nat) : ObjectHandle := ⟨h⟩

/-- Modelled from the spec: `prfHash` is an "opaque enumerated value";
`MechanismType` (declared in `cryptoki/src/mechanism/mod.rs`, not among the
provided sources) wraps a raw `CK_MECHANISM_TYPE` integer, with `Deref`
(`*prf_hash_mechanism` in the source) yielding the raw value `val`. -/
structure MechanismType where
  val : Nat
deriving DecidableEq

/-- A raw byte pointer (`*mut CK_BYTE`): either null, or a pointer into a
buffer holding `bytes`.  `slice::as_ptr` never returns null, so it maps to
`CPtr.valid` even for an empty slice. -/
inductive CPtr where
  | null : CPtr
  | valid (bytes : List UInt8) : CPtr
deriving DecidableEq

/-- `slice::from_raw_parts p len`: defined (returns the `len` bytes at `p`)
exactly when `p` is non-null and valid for `len` bytes; `none` models the
undefined behaviour of the out-of-contract cases. -/
def fromRawParts : CPtr → Nat → Option (List UInt8)
  | CPtr.null, _ => none
  | CPtr.valid bytes, len =>
      if len ≤ bytes.length then some (bytes.take len) else none

/-- The salt for the extract stage (`enum HkdfSalt` in the source). -/
inductive HkdfSalt where
  | Null : HkdfSalt
  | Data (bytes : List UInt8) : HkdfSalt
  | Key (handle : ObjectHandle) : HkdfSalt
deriving DecidableEq

/-- The fixed-layout foreign record `cryptoki_sys::CK_HKDF_PARAMS`, field for
field in declaration order.  Flag bytes and `CK_ULONG` fields are `Nat`s. -/
structure CK_HKDF_PARAMS where
  bExtract : Nat
  bExpand : Nat
  prfHashMechanism : Nat
  ulSaltType : Nat
  pSalt : CPtr
  ulSaltLen : Nat
  hSaltKey : Nat
  pInfo : CPtr
  ulInfoLen : Nat
deriving DecidableEq

/-- The two `expect` panic sites of `HkdfParams::new`: the salt-length and
info-length `try_into` failures ("... does not fit in CK_ULONG"). -/
inductive BuildPanic where
  | saltLengthOverflow : BuildPanic
  | infoLengthOverflow : BuildPanic
deriving DecidableEq

/-- Abnormal exits of the Reader: the `unreachable!()` on an out-of-range
discriminant, and the undefined behaviour of reconstructing a slice from an
invalid pointer/length pair. -/
inductive ReadPanic where
  | invalidDiscriminant : ReadPanic
  | undefinedSlice : ReadPanic
deriving DecidableEq

/-- The checked narrowing `usize::try_into::<CK_ULONG>`: succeeds exactly
when the value fits the foreign integer width. -/
def tryIntoUlong (n : Nat) : Option Nat :=
  if n ≤ CK_ULONG_MAX then some n else none

/-- The `ulSaltLen` field computation of `HkdfParams::new`: for `Data`, the
checked length conversion whose `expect` panics on overflow; `0` otherwise. -/
def saltLenChecked : HkdfSalt → Except BuildPanic Nat
  | HkdfSalt.Data d =>
      match tryIntoUlong d.length with
      | some n => Except.ok n
      | none => Except.error BuildPanic.saltLengthOverflow
  | _ => Except.ok 0

/-- The `ulInfoLen` field computation of `HkdfParams::new`: the checked
length conversion whose `expect` panics on overflow. -/
def infoLenChecked (info : List UInt8) : Except BuildPanic Nat :=
  match tryIntoUlong info.length with
  | some n => Except.ok n
  | none => Except.error BuildPanic.infoLengthOverflow

/-- `HkdfParams::new` (the Builder).  Fields are computed in the source's
textual order, so the salt-length check precedes the info-length check; the
`PhantomData` lifetime marker has no computational content and is omitted.
The `Except` result models the `expect` panics. -/
def HkdfParams.new (ext exp : Bool) (prf_hash_mechanism : MechanismType)
    (salt : HkdfSalt) (info : List UInt8) : Except BuildPanic CK_HKDF_PARAMS :=
  match saltLenChecked salt with
  | Except.error e => Except.error e
  | Except.ok saltLen =>
      match infoLenChecked info with
      | Except.error e => Except.error e
      | Except.ok infoLen =>
          Except.ok
            { bExtract := if ext then 1 else 0
              bExpand := if exp then 1 else 0
              prfHashMechanism := prf_hash_mechanism.val
              ulSaltType :=
                match salt with
                | HkdfSalt.Null => CKF_HKDF_SALT_NULL
                | HkdfSalt.Data _ => CKF_HKDF_SALT_DATA
                | HkdfSalt.Key _ => CKF_HKDF_SALT_KEY
              pSalt :=
                match salt with
                | HkdfSalt.Data d => CPtr.valid d
                | _ => CPtr.null
              ulSaltLen := saltLen
              hSaltKey :=
                match salt with
                | HkdfSalt.Key k => k.handle
                | _ => 0
              pInfo := CPtr.valid info
              ulInfoLen := infoLen }

/-- Reader `HkdfParams::extract`: `self.inner.bExtract != 0`. -/
def CK_HKDF_PARAMS.extract (p : CK_HKDF_PARAMS) : Bool :=
  p.bExtract != 0

/-- Reader `HkdfParams::expand`: `self.inner.bExpand != 0`. -/
def CK_HKDF_PARAMS.expand (p : CK_HKDF_PARAMS) : Bool :=
  p.bExpand != 0

/-- Reader `HkdfParams::salt`: dispatch on `ulSaltType`; the `Data` arm
reconstructs the salt slice via `slice::from_raw_parts`, and the wildcard arm
is `unreachable!()`, modelled as the `invalidDiscriminant` error. -/
def CK_HKDF_PARAMS.salt (p : CK_HKDF_PARAMS) : Except ReadPanic HkdfSalt :=
  if p.ulSaltType = CKF_HKDF_SALT_NULL then Except.ok HkdfSalt.Null
  else if p.ulSaltType = CKF_HKDF_SALT_DATA then
    match fromRawParts p.pSalt p.ulSaltLen with
    | some bs => Except.ok (HkdfSalt.Data bs)
    | none => Except.error ReadPanic.undefinedSlice
  else if p.ulSaltType = CKF_HKDF_SALT_KEY then
    Except.ok (HkdfSalt.Key (ObjectHandle.new p.hSaltKey))
  else Except.error ReadPanic.invalidDiscriminant

/-- Reader `HkdfParams::info`: unconditionally reconstructs the info slice
via `slice::from_raw_parts(pInfo, ulInfoLen)`. -/
def CK_HKDF_PARAMS.info (p : CK_HKDF_PARAMS) : Except ReadPanic (List UInt8) :=
  match fromRawParts p.pInfo p.ulInfoLen with
  | some bs => Except.ok bs
  | none => Except.error ReadPanic.undefinedSlice

/-- The salt argument is buildable: its explicit data, if any, fits the
foreign integer width (so the salt-length `try_into` succeeds). -/
def saltLenOk : HkdfSalt → Prop
  | HkdfSalt.Data d => d.length ≤ CK_ULONG_MAX
  | _ => True

instance : (s : HkdfSalt) → Decidable (saltLenOk s)
  | HkdfSalt.Null => Decidable.isTrue trivial
  | HkdfSalt.Data d => (inferInstance : Decidable (d.length ≤ CK_ULONG_MAX))
  | HkdfSalt.Key _ => Decidable.isTrue trivial

/-- The record `HkdfParams::new` produces on its success path, field by field
(the struct literal of the source with both length checks already passed). -/
def builtRecord (ext exp : Bool) (prf_hash_mechanism : MechanismType)
    (salt : HkdfSalt) (info : List UInt8) : CK_HKDF_PARAMS :=
  { bExtract := if ext then 1 else 0
    bExpand := if exp then 1 else 0
    prfHashMechanism := prf_hash_mechanism.val
    ulSaltType :=
      match salt with
      | HkdfSalt.Null => CKF_HKDF_SALT_NULL
      | HkdfSalt.Data _ => CKF_HKDF_SALT_DATA
      | HkdfSalt.Key _ => CKF_HKDF_SALT_KEY
    pSalt :=
      match salt with
      | HkdfSalt.Data d => CPtr.valid d
      | _ => CPtr.null
    ulSaltLen :=
      match salt with
      | HkdfSalt.Data d => d.length
      | _ => 0
    hSaltKey :=
      match salt with
      | HkdfSalt.Key k => k.handle
      | _ => 0
    pInfo := CPtr.valid info
    ulInfoLen := info.length }

theorem new_eq_ok (ext exp : Bool) (prf : MechanismType) (salt : HkdfSalt)
    (info : List UInt8) (hs : saltLenOk salt) (hi : info.length ≤ CK_ULONG_MAX) :
    HkdfParams.new ext exp prf salt info =
      Except.ok (builtRecord ext exp prf salt info) := by
  cases salt with
  | Null =>
      simp [HkdfParams.new, saltLenChecked, infoLenChecked, tryIntoUlong, hi,
        builtRecord]
  | Data d =>
      simp only [saltLenOk] at hs
      simp [HkdfParams.new, saltLenChecked, infoLenChecked, tryIntoUlong, hs, hi,
        builtRecord]
  | Key k =>
      simp [HkdfParams.new, saltLenChecked, infoLenChecked, tryIntoUlong, hi,
        builtRecord]

theorem new_eq_error_salt (ext exp : Bool) (prf : MechanismType)
    (d info : List UInt8) (hd : CK_ULONG_MAX < d.length) :
    HkdfParams.new ext exp prf (HkdfSalt.Data d) info =
      Except.error BuildPanic.saltLengthOverflow := by
  simp [HkdfParams.new, saltLenChecked, tryIntoUlong, Nat.not_le.mpr hd]

theorem new_eq_error_info (ext exp : Bool) (prf : MechanismType)
    (salt : HkdfSalt) (info : List UInt8) (hs : saltLenOk salt)
    (hi : CK_ULONG_MAX < info.length) :
    HkdfParams.new ext exp prf salt info =
      Except.error BuildPanic.infoLengthOverflow := by
  cases salt with
  | Null =>
      simp [HkdfParams.new, saltLenChecked, infoLenChecked, tryIntoUlong,
        Nat.not_le.mpr hi]
  | Data d =>
      simp only [saltLenOk] at hs
      simp [HkdfParams.new, saltLenChecked, infoLenChecked, tryIntoUlong, hs,
        Nat.not_le.mpr hi]
  | Key k =>
      simp [HkdfParams.new, saltLenChecked, infoLenChecked, tryIntoUlong,
        Nat.not_le.mpr hi]

theorem new_ok_inv (ext exp : Bool) (prf : MechanismType) (salt : HkdfSalt)
    (info : List UInt8) (r : CK_HKDF_PARAMS)
    (h : HkdfParams.new ext exp prf salt info = Except.ok r) :
    saltLenOk salt ∧ info.length ≤ CK_ULONG_MAX ∧
      r = builtRecord ext exp prf salt info := by
  by_cases hs : saltLenOk salt
  · by_cases hi : info.length ≤ CK_ULONG_MAX
    · rw [new_eq_ok ext exp prf salt info hs hi] at h
      exact ⟨hs, hi, (Except.ok.injEq _ _ ▸ h).symm⟩
    · rw [new_eq_error_info ext exp prf salt info hs (Nat.not_le.mp hi)] at h
      simp at h
  · cases salt with
    | Null => exact absurd trivial hs
    | Key k => exact absurd trivial hs
    | Data d =>
        simp only [saltLenOk] at hs
        rw [new_eq_error_salt ext exp prf d info (Nat.not_le.mp hs)] at h
        simp at h

/-- C1: for every valid input tuple whose salt and info lengths fit CK_ULONG,
reading the record produced by HkdfParams::new reproduces the original
values: extract() and expand() return the original booleans, the record's
prfHashMechanism equals the original prf hash value, salt() returns the same
HkdfSalt variant with the same payload, and info() returns the original info
bytes. -/
theorem C1_round_trip (ext exp : Bool) (prf : MechanismType) (salt : HkdfSalt)
    (info : List UInt8) (hs : saltLenOk salt) (hi : info.length ≤ CK_ULONG_MAX) :
    ∃ r, HkdfParams.new ext exp prf salt info = Except.ok r ∧
      r.extract = ext ∧ r.expand = exp ∧ r.prfHashMechanism = prf.val ∧
      r.salt = Except.ok salt ∧ r.info = Except.ok info := by
  refine ⟨builtRecord ext exp prf salt info,
    new_eq_ok ext exp prf salt info hs hi, ?_, ?_, rfl, ?_, ?_⟩
  · cases ext <;> simp [builtRecord, CK_HKDF_PARAMS.extract]
  · cases exp <;> simp [builtRecord, CK_HKDF_PARAMS.expand]
  · cases salt with
    | Null =>
        simp [builtRecord, CK_HKDF_PARAMS.salt, CKF_HKDF_SALT_NULL]
    | Data d =>
        simp [builtRecord, CK_HKDF_PARAMS.salt, fromRawParts,
          CKF_HKDF_SALT_NULL, CKF_HKDF_SALT_DATA]
    | Key k =>
        cases k
        simp [builtRecord, CK_HKDF_PARAMS.salt, ObjectHandle.new,
          CKF_HKDF_SALT_NULL, CKF_HKDF_SALT_DATA, CKF_HKDF_SALT_KEY]
  · simp [builtRecord, CK_HKDF_PARAMS.info, fromRawParts]

/-- Witness for C1 at a concrete input. -/
theorem C1_round_trip_witness :
    saltLenOk (HkdfSalt.Data [97]) ∧ ([98, 99] : List UInt8).length ≤ CK_ULONG_MAX ∧
      (∃ r, HkdfParams.new true false ⟨592⟩ (HkdfSalt.Data [97]) [98, 99] =
          Except.ok r ∧
        r.extract = true ∧ r.expand = false ∧ r.prfHashMechanism = 592 ∧
        r.salt = Except.ok (HkdfSalt.Data [97]) ∧
        r.info = Except.ok [98, 99]) :=
  ⟨by decide, by decide,
    C1_round_trip true false ⟨592⟩ (HkdfSalt.Data [97]) [98, 99]
      (by decide) (by decide)⟩

/-- C2: whenever the salt bytes (for HkdfSalt::Data) or the info bytes are
longer than the maximum representable in CK_ULONG, HkdfParams::new surfaces a
length-overflow error value to its caller — no record is produced, so the
length is never silently truncated or wrapped. -/
theorem C2_length_overflow_surfaced (ext exp : Bool) (prf : MechanismType)
    (salt : HkdfSalt) (info : List UInt8)
    (h : (∃ d, salt = HkdfSalt.Data d ∧ CK_ULONG_MAX < d.length) ∨
      CK_ULONG_MAX < info.length) :
    HkdfParams.new ext exp prf salt info =
        Except.error BuildPanic.saltLengthOverflow ∨
      HkdfParams.new ext exp prf salt info =
        Except.error BuildPanic.infoLengthOverflow := by
  by_cases hs : saltLenOk salt
  · rcases h with ⟨d, rfl, hd⟩ | hi
    · simp only [saltLenOk] at hs
      exact absurd hd (Nat.not_lt.mpr hs)
    · exact Or.inr (new_eq_error_info ext exp prf salt info hs hi)
  · cases salt with
    | Null => exact absurd trivial hs
    | Key k => exact absurd trivial hs
    | Data d =>
        simp only [saltLenOk] at hs
        exact Or.inl (new_eq_error_salt ext exp prf d info (Nat.not_le.mp hs))

/-- Witness for C2: an info buffer one byte longer than CK_ULONG_MAX. -/
theorem C2_length_overflow_surfaced_witness :
    ((∃ d, HkdfSalt.Null = HkdfSalt.Data d ∧ CK_ULONG_MAX < d.length) ∨
      CK_ULONG_MAX < (List.replicate (CK_ULONG_MAX + 1) (0 : UInt8)).length) ∧
    (HkdfParams.new true true ⟨592⟩ HkdfSalt.Null
          (List.replicate (CK_ULONG_MAX + 1) (0 : UInt8)) =
        Except.error BuildPanic.saltLengthOverflow ∨
      HkdfParams.new true true ⟨592⟩ HkdfSalt.Null
          (List.replicate (CK_ULONG_MAX + 1) (0 : UInt8)) =
        Except.error BuildPanic.infoLengthOverflow) :=
  ⟨Or.inr (by rw [List.length_replicate]; exact Nat.lt_succ_self _),
    C2_length_overflow_surfaced true true ⟨592⟩ HkdfSalt.Null
      (List.replicate (CK_ULONG_MAX + 1) (0 : UInt8))
      (Or.inr (by rw [List.length_replicate]; exact Nat.lt_succ_self _))⟩

/-- C3: every record produced by HkdfParams::new carries exactly one of the
three salt shapes, matching its discriminant: the three sentinels are
pairwise distinct, and the record satisfies the none shape (null pointer,
zero length, zero handle), the explicit-data shape (pointer to the salt
bytes, their length, zero handle) or the key-reference shape (null pointer,
zero length, the given handle) according to its ulSaltType. -/
theorem C3_discriminant_consistent (ext exp : Bool) (prf : MechanismType)
    (salt : HkdfSalt) (info : List UInt8) (r : CK_HKDF_PARAMS)
    (h : HkdfParams.new ext exp prf salt info = Except.ok r) :
    (CKF_HKDF_SALT_NULL ≠ CKF_HKDF_SALT_DATA ∧
     CKF_HKDF_SALT_NULL ≠ CKF_HKDF_SALT_KEY ∧
     CKF_HKDF_SALT_DATA ≠ CKF_HKDF_SALT_KEY) ∧
    ((r.ulSaltType = CKF_HKDF_SALT_NULL ∧ r.pSalt = CPtr.null ∧
        r.ulSaltLen = 0 ∧ r.hSaltKey = 0) ∨
     (r.ulSaltType = CKF_HKDF_SALT_DATA ∧
        (∃ d, salt = HkdfSalt.Data d ∧ r.pSalt = CPtr.valid d ∧
          r.ulSaltLen = d.length) ∧ r.hSaltKey = 0) ∨
     (r.ulSaltType = CKF_HKDF_SALT_KEY ∧ r.pSalt = CPtr.null ∧
        r.ulSaltLen = 0 ∧
        (∃ k, salt = HkdfSalt.Key k ∧ r.hSaltKey = k.handle))) := by
  obtain ⟨-, -, rfl⟩ := new_ok_inv ext exp prf salt info r h
  refine ⟨⟨by decide, by decide, by decide⟩, ?_⟩
  cases salt with
  | Null => exact Or.inl ⟨rfl, rfl, rfl, rfl⟩
  | Data d => exact Or.inr (Or.inl ⟨rfl, ⟨d, rfl, rfl, rfl⟩, rfl⟩)
  | Key k => exact Or.inr (Or.inr ⟨rfl, rfl, rfl, ⟨k, rfl, rfl⟩⟩)

/-- Witness for C3 at a concrete built record. -/
theorem C3_discriminant_consistent_witness :
    HkdfParams.new false true ⟨592⟩ (HkdfSalt.Key ⟨7⟩) [1, 2] =
        Except.ok (builtRecord false true ⟨592⟩ (HkdfSalt.Key ⟨7⟩) [1, 2]) ∧
      ((builtRecord false true ⟨592⟩ (HkdfSalt.Key ⟨7⟩) [1, 2]).ulSaltType =
          CKF_HKDF_SALT_KEY ∧
        (builtRecord false true ⟨592⟩ (HkdfSalt.Key ⟨7⟩) [1, 2]).hSaltKey = 7) :=
  ⟨by rfl,
    by
      rcases C3_discriminant_consistent false true ⟨592⟩ (HkdfSalt.Key ⟨7⟩)
        [1, 2] (builtRecord false true ⟨592⟩ (HkdfSalt.Key ⟨7⟩) [1, 2])
        (by rfl) with ⟨-, h | h | h⟩
      · exact absurd h.1 (by decide)
      · exact absurd h.1 (by decide)
      · exact ⟨h.1, by rcases h.2.2.2 with ⟨k, hk, hh⟩; cases hk; exact hh⟩⟩

/-- C4: building with HkdfSalt::Data over the empty byte sequence yields the
explicit-data discriminant with salt length 0 and a non-null salt pointer,
while HkdfSalt::Null yields the none discriminant; the two records differ in
their discriminant, so the zero-length Data case is never collapsed into the
Null case. -/
theorem C4_zero_length_distinct (ext exp : Bool) (prf : MechanismType)
    (info : List UInt8) (hi : info.length ≤ CK_ULONG_MAX) :
    ∃ rd rn,
      HkdfParams.new ext exp prf (HkdfSalt.Data []) info = Except.ok rd ∧
      HkdfParams.new ext exp prf HkdfSalt.Null info = Except.ok rn ∧
      rd.ulSaltType = CKF_HKDF_SALT_DATA ∧ rd.ulSaltLen = 0 ∧
      rd.pSalt ≠ CPtr.null ∧
      rn.ulSaltType = CKF_HKDF_SALT_NULL ∧
      rd.ulSaltType ≠ rn.ulSaltType := by
  refine ⟨builtRecord ext exp prf (HkdfSalt.Data []) info,
    builtRecord ext exp prf HkdfSalt.Null info,
    new_eq_ok ext exp prf (HkdfSalt.Data []) info (by simp [saltLenOk]) hi,
    new_eq_ok ext exp prf HkdfSalt.Null info trivial hi,
    rfl, rfl, by simp [builtRecord], rfl,
    by simp [builtRecord, CKF_HKDF_SALT_DATA, CKF_HKDF_SALT_NULL]⟩

/-- Witness for C4 at a concrete info buffer. -/
theorem C4_zero_length_distinct_witness :
    ([5] : List UInt8).length ≤ CK_ULONG_MAX ∧
      (∃ rd rn,
        HkdfParams.new true true ⟨592⟩ (HkdfSalt.Data []) [5] = Except.ok rd ∧
        HkdfParams.new true true ⟨592⟩ HkdfSalt.Null [5] = Except.ok rn ∧
        rd.ulSaltType = CKF_HKDF_SALT_DATA ∧ rd.ulSaltLen = 0 ∧
        rd.pSalt ≠ CPtr.null ∧
        rn.ulSaltType = CKF_HKDF_SALT_NULL ∧
        rd.ulSaltType ≠ rn.ulSaltType) :=
  ⟨by decide, C4_zero_length_distinct true true ⟨592⟩ [5] (by decide)⟩

/-- C5: the builder encodes each boolean flag as byte 1 for true and 0 for
false (so built records have flag bytes in \x7b0,1\x7d), and the readers decode a
flag byte as true exactly when it is nonzero. -/
theorem C5_flag_encoding :
    (∀ (ext exp : Bool) (prf : MechanismType) (salt : HkdfSalt)
        (info : List UInt8) (r : CK_HKDF_PARAMS),
      HkdfParams.new ext exp prf salt info = Except.ok r →
        r.bExtract = (if ext then 1 else 0) ∧
        r.bExpand = (if exp then 1 else 0)) ∧
    (∀ r : CK_HKDF_PARAMS,
      (r.extract = true ↔ r.bExtract ≠ 0) ∧
      (r.expand = true ↔ r.bExpand ≠ 0)) := by
  constructor
  · intro ext exp prf salt info r h
    obtain ⟨-, -, rfl⟩ := new_ok_inv ext exp prf salt info r h
    exact ⟨rfl, rfl⟩
  · intro r
    constructor <;> simp [CK_HKDF_PARAMS.extract, CK_HKDF_PARAMS.expand]

/-- Witness for C5: a concrete build plus a concrete record with a nonzero
non-one flag byte. -/
theorem C5_flag_encoding_witness :
    (HkdfParams.new true false ⟨592⟩ HkdfSalt.Null [] =
        Except.ok (builtRecord true false ⟨592⟩ HkdfSalt.Null []) ∧
      (builtRecord true false ⟨592⟩ HkdfSalt.Null []).bExtract =
          (if true then 1 else 0) ∧
      (builtRecord true false ⟨592⟩ HkdfSalt.Null []).bExpand =
          (if false then 1 else 0)) ∧
    ((CK_HKDF_PARAMS.mk 7 0 592 1 CPtr.null 0 0 (CPtr.valid []) 0).extract =
          true ↔
        (CK_HKDF_PARAMS.mk 7 0 592 1 CPtr.null 0 0 (CPtr.valid []) 0).bExtract ≠
          0) :=
  ⟨⟨by rfl,
    C5_flag_encoding.1 true false ⟨592⟩ HkdfSalt.Null []
      (builtRecord true false ⟨592⟩ HkdfSalt.Null []) (by rfl)⟩,
    (C5_flag_encoding.2
      (CK_HKDF_PARAMS.mk 7 0 592 1 CPtr.null 0 0 (CPtr.valid []) 0)).1⟩

/-- C6: reading the salt of any record whose ulSaltType lies outside the
three defined sentinels hits the fatal invalid-discriminant path
(unreachable! in the source); no default salt variant is returned. -/
theorem C6_invalid_discriminant_fatal (r : CK_HKDF_PARAMS)
    (h1 : r.ulSaltType ≠ CKF_HKDF_SALT_NULL)
    (h2 : r.ulSaltType ≠ CKF_HKDF_SALT_DATA)
    (h3 : r.ulSaltType ≠ CKF_HKDF_SALT_KEY) :
    r.salt = Except.error ReadPanic.invalidDiscriminant := by
  simp [CK_HKDF_PARAMS.salt, h1, h2, h3]

/-- Witness for C6: a hand-constructed record with discriminant 0. -/
theorem C6_invalid_discriminant_fatal_witness :
    ((CK_HKDF_PARAMS.mk 1 1 592 0 CPtr.null 0 0 (CPtr.valid []) 0).ulSaltType ≠
        CKF_HKDF_SALT_NULL) ∧
    (CK_HKDF_PARAMS.mk 1 1 592 0 CPtr.null 0 0 (CPtr.valid []) 0).salt =
      Except.error ReadPanic.invalidDiscriminant :=
  ⟨by decide,
    C6_invalid_discriminant_fatal
      (CK_HKDF_PARAMS.mk 1 1 592 0 CPtr.null 0 0 (CPtr.valid []) 0)
      (by decide) (by decide) (by decide)⟩

/-- C7: the overflow check is exact at the boundary: a salt-data or info
byte sequence of length CK_ULONG_MAX builds successfully (and the record
stores that exact length), while one of length CK_ULONG_MAX + 1 fails with
the corresponding length-overflow error. -/
theorem C7_overflow_boundary :
    (∀ (ext exp : Bool) (prf : MechanismType) (d info : List UInt8),
      d.length = CK_ULONG_MAX → info.length ≤ CK_ULONG_MAX →
      ∃ r, HkdfParams.new ext exp prf (HkdfSalt.Data d) info = Except.ok r ∧
        r.ulSaltLen = CK_ULONG_MAX) ∧
    (∀ (ext exp : Bool) (prf : MechanismType) (d info : List UInt8),
      d.length = CK_ULONG_MAX + 1 →
      HkdfParams.new ext exp prf (HkdfSalt.Data d) info =
        Except.error BuildPanic.saltLengthOverflow) ∧
    (∀ (ext exp : Bool) (prf : MechanismType) (salt : HkdfSalt)
        (info : List UInt8),
      saltLenOk salt → info.length = CK_ULONG_MAX →
      ∃ r, HkdfParams.new ext exp prf salt info = Except.ok r ∧
        r.ulInfoLen = CK_ULONG_MAX) ∧
    (∀ (ext exp : Bool) (prf : MechanismType) (salt : HkdfSalt)
        (info : List UInt8),
      saltLenOk salt → info.length = CK_ULONG_MAX + 1 →
      HkdfParams.new ext exp prf salt info =
        Except.error BuildPanic.infoLengthOverflow) := by
  refine ⟨?_, ?_, ?_, ?_⟩
  · intro ext exp prf d info hd hi
    refine ⟨builtRecord ext exp prf (HkdfSalt.Data d) info,
      new_eq_ok ext exp prf (HkdfSalt.Data d) info ?_ hi, hd⟩
    simpa [saltLenOk] using Nat.le_of_eq hd
  · intro ext exp prf d info hd
    exact new_eq_error_salt ext exp prf d info (by rw [hd]; exact Nat.lt_succ_self _)
  · intro ext exp prf salt info hs hi
    refine ⟨builtRecord ext exp prf salt info,
      new_eq_ok ext exp prf salt info hs (Nat.le_of_eq hi), ?_⟩
    simpa [builtRecord] using hi
  · intro ext exp prf salt info hs hi
    exact new_eq_error_info ext exp prf salt info hs
      (by rw [hi]; exact Nat.lt_succ_self _)

/-- Witness for C7: byte sequences of length CK_ULONG_MAX and
CK_ULONG_MAX + 1, on both the salt-data path and the info path. -/
theorem C7_overflow_boundary_witness :
    ((List.replicate CK_ULONG_MAX (0 : UInt8)).length = CK_ULONG_MAX ∧
      (∃ r, HkdfParams.new true true ⟨592⟩
          (HkdfSalt.Data (List.replicate CK_ULONG_MAX (0 : UInt8))) [] =
            Except.ok r ∧
        r.ulSaltLen = CK_ULONG_MAX)) ∧
    ((List.replicate (CK_ULONG_MAX + 1) (0 : UInt8)).length =
        CK_ULONG_MAX + 1 ∧
      HkdfParams.new true true ⟨592⟩
          (HkdfSalt.Data (List.replicate (CK_ULONG_MAX + 1) (0 : UInt8))) [] =
        Except.error BuildPanic.saltLengthOverflow) ∧
    ((List.replicate CK_ULONG_MAX (0 : UInt8)).length = CK_ULONG_MAX ∧
      (∃ r, HkdfParams.new true true ⟨592⟩ HkdfSalt.Null
          (List.replicate CK_ULONG_MAX (0 : UInt8)) = Except.ok r ∧
        r.ulInfoLen = CK_ULONG_MAX)) ∧
    ((List.replicate (CK_ULONG_MAX + 1) (0 : UInt8)).length =
        CK_ULONG_MAX + 1 ∧
      HkdfParams.new true true ⟨592⟩ HkdfSalt.Null
          (List.replicate (CK_ULONG_MAX + 1) (0 : UInt8)) =
        Except.error BuildPanic.infoLengthOverflow) :=
  ⟨⟨List.length_replicate CK_ULONG_MAX 0,
    C7_overflow_boundary.1 true true ⟨592⟩
      (List.replicate CK_ULONG_MAX (0 : UInt8)) []
      (List.length_replicate CK_ULONG_MAX 0) (Nat.zero_le _)⟩,
   ⟨List.length_replicate (CK_ULONG_MAX + 1) 0,
    C7_overflow_boundary.2.1 true true ⟨592⟩
      (List.replicate (CK_ULONG_MAX + 1) (0 : UInt8)) []
      (List.length_replicate (CK_ULONG_MAX + 1) 0)⟩,
   ⟨List.length_replicate CK_ULONG_MAX 0,
    C7_overflow_boundary.2.2.1 true true ⟨592⟩ HkdfSalt.Null
      (List.replicate CK_ULONG_MAX (0 : UInt8)) trivial
      (List.length_replicate CK_ULONG_MAX 0)⟩,
   ⟨List.length_replicate (CK_ULONG_MAX + 1) 0,
    C7_overflow_boundary.2.2.2 true true ⟨592⟩ HkdfSalt.Null
      (List.replicate (CK_ULONG_MAX + 1) (0 : UInt8)) trivial
      (List.length_replicate (CK_ULONG_MAX + 1) 0)⟩⟩

/-- C8: every record the builder produces carries one of the three defined
sentinels as its salt discriminant, so reading the salt of a builder-produced
record never reaches the fatal invalid-discriminant branch (indeed the read
succeeds outright). -/
theorem C8_builder_never_invalid_discriminant (ext exp : Bool)
    (prf : MechanismType) (salt : HkdfSalt) (info : List UInt8)
    (r : CK_HKDF_PARAMS)
    (h : HkdfParams.new ext exp prf salt info = Except.ok r) :
    (r.ulSaltType = CKF_HKDF_SALT_NULL ∨ r.ulSaltType = CKF_HKDF_SALT_DATA ∨
      r.ulSaltType = CKF_HKDF_SALT_KEY) ∧
    (∃ s, r.salt = Except.ok s) ∧
    r.salt ≠ Except.error ReadPanic.invalidDiscriminant := by
  obtain ⟨-, -, rfl⟩ := new_ok_inv ext exp prf salt info r h
  refine ⟨?_, ?_, ?_⟩
  · cases salt with
    | Null => exact Or.inl rfl
    | Data d => exact Or.inr (Or.inl rfl)
    | Key k => exact Or.inr (Or.inr rfl)
  · cases salt with
    | Null =>
        exact ⟨HkdfSalt.Null,
          by simp [builtRecord, CK_HKDF_PARAMS.salt, CKF_HKDF_SALT_NULL]⟩
    | Data d =>
        exact ⟨HkdfSalt.Data d,
          by simp [builtRecord, CK_HKDF_PARAMS.salt, fromRawParts,
            CKF_HKDF_SALT_NULL, CKF_HKDF_SALT_DATA]⟩
    | Key k =>
        exact ⟨HkdfSalt.Key k,
          by
            cases k
            simp [builtRecord, CK_HKDF_PARAMS.salt, ObjectHandle.new,
              CKF_HKDF_SALT_NULL, CKF_HKDF_SALT_DATA, CKF_HKDF_SALT_KEY]⟩
  · cases salt with
    | Null =>
        simp [builtRecord, CK_HKDF_PARAMS.salt, CKF_HKDF_SALT_NULL]
    | Data d =>
        simp [builtRecord, CK_HKDF_PARAMS.salt, fromRawParts,
          CKF_HKDF_SALT_NULL, CKF_HKDF_SALT_DATA]
    | Key k =>
        simp [builtRecord, CK_HKDF_PARAMS.salt, ObjectHandle.new,
          CKF_HKDF_SALT_NULL, CKF_HKDF_SALT_DATA, CKF_HKDF_SALT_KEY]

/-- Witness for C8 at a concrete built record. -/
theorem C8_builder_never_invalid_discriminant_witness :
    HkdfParams.new false false ⟨592⟩ (HkdfSalt.Data [3, 4]) [9] =
        Except.ok (builtRecord false false ⟨592⟩ (HkdfSalt.Data [3, 4]) [9]) ∧
      (builtRecord false false ⟨592⟩ (HkdfSalt.Data [3, 4]) [9]).salt ≠
        Except.error ReadPanic.invalidDiscriminant :=
  ⟨by rfl,
    (C8_builder_never_invalid_discriminant false false ⟨592⟩
      (HkdfSalt.Data [3, 4]) [9]
      (builtRecord false false ⟨592⟩ (HkdfSalt.Data [3, 4]) [9])
      (by rfl)).2.2⟩

/-- C9: every builder-produced record has a non-null info pointer — even for
empty info, where the length is 0 — and the pointer is valid for
ulInfoLen bytes: reconstructing the info slice from the stored pointer and
length is defined and yields exactly the original info bytes. -/
theorem C9_info_pointer_valid (ext exp : Bool) (prf : MechanismType)
    (salt : HkdfSalt) (info : List UInt8) (r : CK_HKDF_PARAMS)
    (h : HkdfParams.new ext exp prf salt info = Except.ok r) :
    r.pInfo ≠ CPtr.null ∧ r.ulInfoLen = info.length ∧
    fromRawParts r.pInfo r.ulInfoLen = some info := by
  obtain ⟨-, -, rfl⟩ := new_ok_inv ext exp prf salt info r h
  exact ⟨by simp [builtRecord], rfl, by simp [builtRecord, fromRawParts]⟩

/-- Witness for C9 at an empty info buffer. -/
theorem C9_info_pointer_valid_witness :
    HkdfParams.new true true ⟨592⟩ HkdfSalt.Null [] =
        Except.ok (builtRecord true true ⟨592⟩ HkdfSalt.Null []) ∧
      (builtRecord true true ⟨592⟩ HkdfSalt.Null []).pInfo ≠ CPtr.null ∧
      (builtRecord true true ⟨592⟩ HkdfSalt.Null []).ulInfoLen =
        ([] : List UInt8).length ∧
      fromRawParts (builtRecord true true ⟨592⟩ HkdfSalt.Null []).pInfo
          (builtRecord true true ⟨592⟩ HkdfSalt.Null []).ulInfoLen =
        some [] :=
  ⟨by rfl,
    C9_info_pointer_valid true true ⟨592⟩ HkdfSalt.Null []
      (builtRecord true true ⟨592⟩ HkdfSalt.Null []) (by rfl)⟩

/-- C10: each reader accessor depends only on its own field group: records
agreeing on bExtract give the same extract(), records agreeing on bExpand
give the same expand(), records agreeing on the info pointer and length give
the same info(), and records agreeing on the four salt fields give the same
salt(), regardless of every other field. -/
theorem C10_accessor_field_locality :
    (∀ r1 r2 : CK_HKDF_PARAMS, r1.bExtract = r2.bExtract →
      r1.extract = r2.extract) ∧
    (∀ r1 r2 : CK_HKDF_PARAMS, r1.bExpand = r2.bExpand →
      r1.expand = r2.expand) ∧
    (∀ r1 r2 : CK_HKDF_PARAMS, r1.pInfo = r2.pInfo →
      r1.ulInfoLen = r2.ulInfoLen → r1.info = r2.info) ∧
    (∀ r1 r2 : CK_HKDF_PARAMS, r1.ulSaltType = r2.ulSaltType →
      r1.pSalt = r2.pSalt → r1.ulSaltLen = r2.ulSaltLen →
      r1.hSaltKey = r2.hSaltKey → r1.salt = r2.salt) := by
  refine ⟨?_, ?_, ?_, ?_⟩
  · intro r1 r2 h
    simp [CK_HKDF_PARAMS.extract, h]
  · intro r1 r2 h
    simp [CK_HKDF_PARAMS.expand, h]
  · intro r1 r2 h1 h2
    simp [CK_HKDF_PARAMS.info, h1, h2]
  · intro r1 r2 h1 h2 h3 h4
    simp [CK_HKDF_PARAMS.salt, h1, h2, h3, h4]

/-- Witness for C10: two concrete records agreeing only on the flag byte
(resp. on the salt field group) but differing elsewhere. -/
theorem C10_accessor_field_locality_witness :
    ((CK_HKDF_PARAMS.mk 1 0 592 1 CPtr.null 0 0 (CPtr.valid []) 0).extract =
      (CK_HKDF_PARAMS.mk 1 9 593 4 (CPtr.valid [5]) 1 8 (CPtr.valid [7]) 1).extract) ∧
    ((CK_HKDF_PARAMS.mk 1 0 592 1 CPtr.null 0 0 (CPtr.valid []) 0).salt =
      (CK_HKDF_PARAMS.mk 0 9 593 1 CPtr.null 0 0 (CPtr.valid [7]) 1).salt) :=
  ⟨C10_accessor_field_locality.1
      (CK_HKDF_PARAMS.mk 1 0 592 1 CPtr.null 0 0 (CPtr.valid []) 0)
      (CK_HKDF_PARAMS.mk 1 9 593 4 (CPtr.valid [5]) 1 8 (CPtr.valid [7]) 1) rfl,
    C10_accessor_field_locality.2.2.2
      (CK_HKDF_PARAMS.mk 1 0 592 1 CPtr.null 0 0 (CPtr.valid []) 0)
      (CK_HKDF_PARAMS.mk 0 9 593 1 CPtr.null 0 0 (CPtr.valid [7]) 1)
      rfl rfl rfl rfl⟩
